import Mathlib

/-!
A shallow embedding of `tornado/httpserver.py` (the `HTTPServer`,
`HTTPConnection` and `HTTPRequest` classes) together with theorems about
its request parsing, keep-alive decision, idle-timeout handling and
argument decoding.

Header bytes are decoded as Latin-1 in the source, so raw wire data is
modelled as a Lean `String`, indexed by characters.  Python's container
truthiness and string slicing conventions are reproduced by explicit
helper functions.  The event-driven connection methods are modelled as
state transformers that also emit the list of externally visible actions
(stream reads/writes, timer arm/cancel, logging, handler dispatch) they
perform, in order.
-/

namespace Tornado

/-! ### Python string helpers

All string operations are implemented by structural recursion over the
character list, so that every definition evaluates inside the kernel on
concrete inputs. -/

/-- Splitter on a non-empty separator, keeping empty pieces, with fuel
bounding the recursion (one unit per consumed character suffices). -/
def splitOnAuxL (sep : List Char) : Nat → List Char → List Char → List (List Char)
  | _, [], acc => [acc.reverse]
  | 0, l, acc => [acc.reverse ++ l]
  | fuel + 1, c :: rest, acc =>
    if sep.isPrefixOf (c :: rest) then
      acc.reverse :: splitOnAuxL sep fuel ((c :: rest).drop sep.length) []
    else
      splitOnAuxL sep fuel rest (c :: acc)

/-- `s.split(sep)` on every non-overlapping occurrence, keeping empty
pieces (the semantics shared by Python's two-argument `split` and Lean's
`String.splitOn`). -/
def strSplitOn (s sep : String) : List String :=
  if sep = "" then [s]
  else (splitOnAuxL sep.toList s.toList.length s.toList []).map List.asString

/-- Whitespace stripping from both ends — Python `s.strip()`. -/
def strTrim (s : String) : String :=
  ((s.toList.dropWhile Char.isWhitespace).reverse.dropWhile Char.isWhitespace).reverse.asString

/-- Whether `pat` occurs at the start of `s` — Python `s.startswith(pat)`. -/
def strStartsWith (s pat : String) : Bool :=
  pat.toList.isPrefixOf s.toList

/-- ASCII-friendly lowercasing, character by character. -/
def strLower (s : String) : String :=
  (s.toList.map Char.toLower).asString

/-- Python truthiness of an optional string (`None` and `""` are falsy). -/
def pyTruthy : Option String → Bool
  | none => false
  | some s => s ≠ ""

/-- Python `a or b` on optional strings: `b` when `a` is falsy. -/
def pyOr (a b : Option String) : Option String :=
  if pyTruthy a then a else b

/-- Index (in characters) of the first occurrence of `pat` in `s`,
or `-1` when absent — Python `s.find(pat)` (for non-empty `pat`). -/
def strFind (s pat : String) : Int :=
  match strSplitOn s pat with
  | [] => -1
  | [_] => -1
  | s0 :: _ => (s0.length : Int)

/-- Python `s[:i]`: negative indices count from the end, out-of-range clamps. -/
def pySliceTo (s : String) (i : Int) : String :=
  let n : Int := s.length
  let j := if i < 0 then max (n + i) 0 else min i n
  (s.toList.take j.toNat).asString

/-- Python `s[i:]`: negative indices count from the end, out-of-range clamps. -/
def pySliceFrom (s : String) (i : Int) : String :=
  let n : Int := s.length
  let j := if i < 0 then max (n + i) 0 else min i n
  (s.toList.drop j.toNat).asString

/-- Split `s` at the first occurrence of `sep`, returning the pieces before
and after it; `none` when `sep` does not occur (Python `s.split(sep, 1)`). -/
def splitFirst (s sep : String) : Option (String × String) :=
  match strSplitOn s sep with
  | [] => none
  | [_] => none
  | k :: rest => some (k, String.intercalate sep rest)

/-- Python `s.partition(sep)` reduced to the (before, after) pair:
`(s, "")` when `sep` does not occur. -/
def pyPartition (s sep : String) : String × String :=
  match splitFirst s sep with
  | some kv => kv
  | none => (s, "")

/-- Whether every character of `s` is an ASCII decimal digit. -/
def allDigits (s : String) : Bool :=
  s.toList.all fun c => c.isDigit

/-- Numeric value of a string of decimal digits. -/
def digitsToNat (s : String) : Nat :=
  s.toList.foldl (fun acc c => acc * 10 + (c.toNat - 48)) 0

/-- Python `int(s)`: optional surrounding whitespace, optional sign,
then decimal digits; `none` models the `ValueError` raised otherwise. -/
def pyInt (s : String) : Option Int :=
  let t := strTrim s
  let signDigits :=
    if strStartsWith t "-" then ((-1 : Int), pySliceFrom t 1)
    else if strStartsWith t "+" then ((1 : Int), pySliceFrom t 1)
    else ((1 : Int), t)
  if signDigits.2 ≠ "" ∧ allDigits signDigits.2 then
    some (signDigits.1 * (digitsToNat signDigits.2 : Int))
  else none

/-! ### Headers

Modelled from the spec: the external header container
(`tornado.httputil.HTTPHeaders`, not under `src/`) is a case-insensitive
multimap supporting `.get(name)` with an optional default.  We model it
as the list of (name, value) pairs in wire order; `get` returns the
first value whose name matches case-insensitively. -/

/-- ASCII-lowercased header name, used for case-insensitive comparison. -/
def normName (s : String) : String := strLower s

structure HTTPHeaders where
  entries : List (String × String)
  deriving Repr, DecidableEq

namespace HTTPHeaders

/-- `headers.get(name)`: first value stored under a case-insensitive match. -/
def get (h : HTTPHeaders) (name : String) : Option String :=
  (h.entries.find? fun p => normName p.1 = normName name).map Prod.snd

/-- `headers.get(name, default)` where the default may itself be `None`. -/
def getOr (h : HTTPHeaders) (name : String) (dflt : Option String) : Option String :=
  match h.get name with
  | some v => some v
  | none => dflt

/-- `name in headers` (case-insensitive, like the normalized-key dict). -/
def mem (h : HTTPHeaders) (name : String) : Bool :=
  (h.get name).isSome

/-- Modelled from the spec: `HTTPHeaders.parse` of the external header
container splits the header block on CRLF and each non-empty line at the
first colon, stripping the value; continuation lines and colon-less
lines are out of the claims' scope and are skipped. -/
def parse (data : String) : HTTPHeaders :=
  ⟨(strSplitOn data "\r\n").filterMap fun line =>
    if line = "" then none
    else match splitFirst line ":" with
      | some (name, value) => some (name, strTrim value)
      | none => none⟩

end HTTPHeaders

/-! ### Query-string decoding

Modelled from the spec: `tornado.escape.parse_qs_bytes` (not under
`src/`) decodes a form-encoded query string into a mapping from names to
lists of values, splitting on `&` and at the first `=` of each pair;
percent-decoding is outside the claims' scope.  Blank values are kept
here; the server code filters them out itself. -/

/-- Append value `v` under key `k`, preserving first-occurrence key order. -/
def addPair : List (String × List String) → String → String → List (String × List String)
  | [], k, v => [(k, [v])]
  | (k0, vs) :: rest, k, v =>
    if k0 = k then (k0, vs ++ [v]) :: rest else (k0, vs) :: addPair rest k v

/-- The (name, value) pairs of a query string, in order. -/
def qsPairs (qs : String) : List (String × String) :=
  (strSplitOn qs "&").filterMap fun tok =>
    if tok = "" then none else splitFirst tok "="

def parse_qs_bytes (qs : String) : List (String × List String) :=
  (qsPairs qs).foldl (fun acc p => addPair acc p.1 p.2) []

/-- The filtering loop of `HTTPRequest.__init__`: keep only truthy values
and drop names whose value list becomes empty
(`values = [v for v in values if v]; if values: arguments[name] = values`). -/
def filterArguments (args : List (String × List String)) : List (String × List String) :=
  args.filterMap fun p =>
    let values := p.2.filter fun v => v ≠ ""
    if values ≠ [] then some (p.1, values) else none

/-- `arguments.setdefault(name, []).extend(values)` over an association list. -/
def extendArg : List (String × List String) → String → List String → List (String × List String)
  | [], k, vs => [(k, vs)]
  | (k0, vs0) :: rest, k, vs =>
    if k0 = k then (k0, vs0 ++ vs) :: rest else (k0, vs0) :: extendArg rest k vs

/-- The form-decoding loop of `_on_request_body` for
`application/x-www-form-urlencoded` bodies: for each parsed name, filter
truthy values and, when any remain, extend the existing entry. -/
def mergeFormArguments (args : List (String × List String))
    (parsed : List (String × List String)) : List (String × List String) :=
  parsed.foldl
    (fun acc p =>
      let values := p.2.filter fun v => v ≠ ""
      if values ≠ [] then extendArg acc p.1 values else acc)
    args

/-- Modelled from the spec: the URL splitter (`urlparse.urlsplit`, not
under `src/`) decomposes a request URI into path and query; for
origin-form URIs this takes the fragment off at the first `#` and splits
at the first `?`. -/
def urlsplitPathQuery (uri : String) : String × String :=
  let noFrag := (pyPartition uri "#").1
  pyPartition noFrag "?"

/-! ### HTTPRequest -/

/-- An `HTTPRequest` after `__init__` has run.  `remote_ip` stays optional
because the constructor argument may be `None` and the xheaders chain can
leave it so; `files` and the connection back-reference carry no data the
claims need beyond the flags passed to `make`. -/
structure HTTPRequest where
  method : String
  uri : String
  version : String
  headers : HTTPHeaders
  body : String
  remote_ip : Option String
  protocol : String
  host : String
  path : String
  query : String
  arguments : List (String × List String)
  deriving Repr, DecidableEq

namespace HTTPRequest

/-- `HTTPRequest.__init__`.  `conn_present` models `connection` being
non-`None`, `xheaders` its `xheaders` flag, and `stream_ssl` the
`isinstance(connection.stream, iostream.SSLIOStream)` test. -/
def make (method uri : String) (version : String := "HTTP/1.0")
    (headers : HTTPHeaders := ⟨[]⟩) (body : Option String := none)
    (remote_ip : Option String := none) (protocol : Option String := none)
    (host : Option String := none) (conn_present : Bool := false)
    (xheaders : Bool := false) (stream_ssl : Bool := false) : HTTPRequest :=
  let bodyVal := if pyTruthy body then body.getD "" else ""
  let ripProto :=
    if conn_present ∧ xheaders then
      -- Squid uses X-Forwarded-For, others use X-Real-Ip
      let rip := headers.getOr "X-Real-Ip" (headers.getOr "X-Forwarded-For" remote_ip)
      -- AWS uses X-Forwarded-Proto
      let p := headers.getOr "X-Scheme" (headers.getOr "X-Forwarded-Proto" protocol)
      let p := if p = some "http" ∨ p = some "https" then p.getD "" else "http"
      (rip, p)
    else
      (remote_ip,
        if pyTruthy protocol then protocol.getD ""
        else if conn_present ∧ stream_ssl then "https"
        else "http")
  let hostVal := (pyOr host (headers.get "Host")).getD "127.0.0.1"
  let pathQuery := urlsplitPathQuery uri
  { method := method
    uri := uri
    version := version
    headers := headers
    body := bodyVal
    remote_ip := ripProto.1
    protocol := ripProto.2
    host := hostVal
    path := pathQuery.1
    query := pathQuery.2
    arguments := filterArguments (parse_qs_bytes pathQuery.2) }

/-- `supports_http_1_1`: the version string equals `"HTTP/1.1"`. -/
def supports_http_1_1 (r : HTTPRequest) : Bool :=
  r.version = "HTTP/1.1"

end HTTPRequest

/-! ### The connection state machine

The stream, reactor and handler are external collaborators; each
connection method is modelled as a function from the connection state to
the new state paired with the ordered list of externally visible actions
it performs. -/

/-- Externally visible effects of a connection method, in order. -/
inductive Action where
  | addTimeout (handle : Nat)
  | removeTimeout (handle : Nat)
  | streamWrite (data : String)
  | streamClose
  | readUntilDoubleCrlf
  | readBytes (n : Int)
  | logInfoMalformed (ip msg : String)
  | logWarningMultipart
  | dispatch (r : HTTPRequest)
  | raiseUncaught (msg : String)
  deriving Repr, DecidableEq

/-- The observable state of the external stream the connection owns. -/
structure IOStream where
  closed : Bool
  writing : Bool
  is_ssl : Bool
  max_buffer_size : Nat
  deriving Repr, DecidableEq

/-- An `HTTPConnection`'s mutable state.  `timeout_handle` is
`_timeout_handle` (timer handles are numbered; `next_handle` supplies the
fresh one the reactor would return from `add_timeout`). -/
structure HTTPConnection where
  stream : IOStream
  address : String
  no_keep_alive : Bool
  xheaders : Bool
  connection_timeout : Int
  timeout_handle : Option Nat
  next_handle : Nat
  request : Option HTTPRequest
  request_finished : Bool
  deriving Repr, DecidableEq

namespace HTTPConnection

/-- `remove_connection_timeout`: cancel the outstanding handle when one is
set.  The source does not clear `_timeout_handle`, so the state is
unchanged. -/
def remove_connection_timeout (c : HTTPConnection) : List Action :=
  match c.timeout_handle with
  | some h => [Action.removeTimeout h]
  | none => []

/-- `reset_connection_timeout`: a no-op under the `-1` sentinel; otherwise
cancel the previous handle and arm a fresh one at `now + timeout`. -/
def reset_connection_timeout (c : HTTPConnection) : HTTPConnection × List Action :=
  if c.connection_timeout = -1 then (c, [])
  else
    ({ c with timeout_handle := some c.next_handle, next_handle := c.next_handle + 1 },
      remove_connection_timeout c ++ [Action.addTimeout c.next_handle])

/-- `_handle_timeout`: no-op on a closed stream; re-arm while the stream
is writing; otherwise close the stream. -/
def handle_timeout (c : HTTPConnection) : HTTPConnection × List Action :=
  if c.stream.closed then (c, [])
  else if c.stream.writing then c.reset_connection_timeout
  else ({ c with stream.closed := true }, [Action.streamClose])

/-- The keep-alive decision of `_finish_request` (given that
`no_keep_alive` is false): HTTP/1.1 disconnects exactly on
`Connection: close`; otherwise a framed response (`Content-Length`
present, or method HEAD or GET) stays open exactly on
`Connection: Keep-Alive`, and everything else disconnects. -/
def finish_disconnect_decision (r : HTTPRequest) : Bool :=
  let connection_header := r.headers.get "Connection"
  if r.supports_http_1_1 then connection_header = some "close"
  else if r.headers.mem "Content-Length" ∨ r.method = "HEAD" ∨ r.method = "GET" then
    connection_header ≠ some "Keep-Alive"
  else true

/-- `_finish_request`: compute the keep-alive decision, clear the request,
then either close the stream or re-arm the timer and schedule the next
header read.  When `no_keep_alive` is false the source reads
`self._request.headers`; with no request in flight that is an uncaught
`AttributeError`. -/
def finish_request (c : HTTPConnection) : HTTPConnection × List Action :=
  if c.no_keep_alive then
    ({ c with request := none, request_finished := false, stream.closed := true },
      [Action.streamClose])
  else
    match c.request with
    | none => (c, [Action.raiseUncaught "AttributeError"])
    | some r =>
      let c1 : HTTPConnection := { c with request := none, request_finished := false }
      if finish_disconnect_decision r then
        ({ c1 with stream.closed := true }, [Action.streamClose])
      else
        let r2 := c1.reset_connection_timeout
        (r2.1, r2.2 ++ [Action.readUntilDoubleCrlf])

/-- `_on_write_complete` (the write-completion callback: the stream is no
longer writing at this point): finish the request when the handler has
already called `finish`, else do nothing. -/
def on_write_complete (c : HTTPConnection) : HTTPConnection × List Action :=
  if c.request_finished then c.finish_request else (c, [])

/-- `write`: assert a request is in flight; write through unless the
stream is already closed. -/
def write (c : HTTPConnection) (chunk : String) : HTTPConnection × List Action :=
  match c.request with
  | none => (c, [Action.raiseUncaught "AssertionError: Request closed"])
  | some _ =>
    if c.stream.closed then (c, [])
    else ({ c with stream.writing := true }, [Action.streamWrite chunk])

/-- `finish`: assert a request is in flight; mark it finished and run the
finish procedure now unless a write is still draining. -/
def finish (c : HTTPConnection) : HTTPConnection × List Action :=
  match c.request with
  | none => (c, [Action.raiseUncaught "AssertionError: Request closed"])
  | some _ =>
    let c1 : HTTPConnection := { c with request_finished := true }
    if c1.stream.writing then (c1, []) else c1.finish_request

end HTTPConnection

/-- Outcome of the body of `_on_headers`'s `try` block after the timer
reset: normal completion with the new state and further actions, a
`_BadRequestException` carrying the state at raise time and its message,
or an exception the handler does not catch (the `except` clause names
`_BadRequestException` only). -/
inductive OnHeadersOutcome where
  | ok (c : HTTPConnection) (acts : List Action)
  | badRequest (c : HTTPConnection) (msg : String)
  | uncaught (c : HTTPConnection) (msg : String)
  deriving Repr, DecidableEq

namespace HTTPConnection

/-- The `Content-Length` / dispatch tail of `_on_headers`, once the
request line has parsed into `method`/`uri`/`version` and the header
block into `headers`: build the request; when `Content-Length` is truthy
coerce it with `int` (uncaught `ValueError` when non-numeric), reject
values above `max_buffer_size` as bad requests, answer
`Expect: 100-continue`, and schedule the body read; otherwise dispatch
the request at once. -/
def handle_parsed (c : HTTPConnection) (method uri version : String)
    (headers : HTTPHeaders) : OnHeadersOutcome :=
  let req := HTTPRequest.make method uri version headers none (some c.address)
    none none true c.xheaders c.stream.is_ssl
  let c1 : HTTPConnection := { c with request := some req }
  let cl := headers.get "Content-Length"
  if pyTruthy cl then
    match pyInt (cl.getD "") with
    | none => OnHeadersOutcome.uncaught c1 "ValueError: invalid literal for int"
    | some n =>
      if n > (c1.stream.max_buffer_size : Int) then
        OnHeadersOutcome.badRequest c1 "Content-Length too long"
      else
        let continueActs :=
          if headers.get "Expect" = some "100-continue" then
            [Action.streamWrite "HTTP/1.1 100 (Continue)\r\n\r\n"]
          else []
        OnHeadersOutcome.ok c1 (continueActs ++ [Action.readBytes n])
  else
    OnHeadersOutcome.ok c1 [Action.dispatch req]

/-- The `try` block of `_on_headers` after the timer reset: find the end
of the request line (`data.find` returns `-1` when absent), split it on
single spaces into exactly three tokens, require the `HTTP/` version
prefix, parse the remaining bytes as headers, and continue with
`handle_parsed`. -/
def on_headers_try (c : HTTPConnection) (data : String) : OnHeadersOutcome :=
  let eol := strFind data "\r\n"
  let start_line := pySliceTo data eol
  match strSplitOn start_line " " with
  | [method, uri, version] =>
    if strStartsWith version "HTTP/" then
      c.handle_parsed method uri version (HTTPHeaders.parse (pySliceFrom data eol))
    else OnHeadersOutcome.badRequest c "Malformed HTTP version in HTTP Request-Line"
  | _ => OnHeadersOutcome.badRequest c "Malformed HTTP request line"

/-- `_on_headers`: reset the idle timer first; a `_BadRequestException`
is logged at info with the peer IP and message and closes the stream; any
other exception propagates out of the callback uncaught. -/
def on_headers (c : HTTPConnection) (data : String) : HTTPConnection × List Action :=
  let r := c.reset_connection_timeout
  match (r.1).on_headers_try data with
  | OnHeadersOutcome.ok c2 acts2 => (c2, r.2 ++ acts2)
  | OnHeadersOutcome.badRequest c2 msg =>
    ({ c2 with stream.closed := true },
      r.2 ++ [Action.logInfoMalformed c2.address msg, Action.streamClose])
  | OnHeadersOutcome.uncaught c2 msg =>
    (c2, r.2 ++ [Action.raiseUncaught msg])

/-- The boundary search of the `multipart/form-data` branch: split the
`Content-Type` value on `;`, strip each field, partition it at the first
`=`, and use the first field whose key is `boundary` with a truthy
value. -/
def findBoundary (content_type : String) : Option String :=
  (strSplitOn content_type ";").findSome? fun field =>
    let kv := pyPartition (strTrim field) "="
    if kv.1 = "boundary" ∧ kv.2 ≠ "" then some kv.2 else none

/-- Signature of the external multipart decoder
(`httputil.parse_multipart_form_data`, not under `src/`): boundary,
body, and the current arguments map, returning the updated arguments
map. -/
abbrev MultipartDecoder :=
  String → String → List (String × List String) → List (String × List String)

/-- The form-decoding block of `_on_request_body`, applied to the request
after its body has been stored: decode
`application/x-www-form-urlencoded` or `multipart/form-data` bodies of
POST/PUT requests into `arguments`; a multipart `Content-Type` without a
boundary logs a warning and leaves the body undecoded. -/
def decodeBody (mp : MultipartDecoder) (r1 : HTTPRequest) (data : String) :
    HTTPRequest × List Action :=
  let content_type := (r1.headers.get "Content-Type").getD ""
  if r1.method = "POST" ∨ r1.method = "PUT" then
    if strStartsWith content_type "application/x-www-form-urlencoded" then
      ({ r1 with arguments :=
          mergeFormArguments r1.arguments (parse_qs_bytes r1.body) }, [])
    else if strStartsWith content_type "multipart/form-data" then
      match findBoundary content_type with
      | some boundary =>
        ({ r1 with arguments := mp boundary data r1.arguments }, [])
      | none => (r1, [Action.logWarningMultipart])
    else (r1, [])
  else (r1, [])

/-- `_on_request_body`: reset the idle timer, store the body, decode the
form body if applicable, and dispatch the request. -/
def on_request_body (c : HTTPConnection) (mp : MultipartDecoder)
    (data : String) : HTTPConnection × List Action :=
  let rs := c.reset_connection_timeout
  let c1 := rs.1
  let acts1 := rs.2
  match c1.request with
  | none => (c1, acts1 ++ [Action.raiseUncaught "AttributeError"])
  | some r =>
    let decoded := decodeBody mp { r with body := data } data
    let r2 := decoded.1
    ({ c1 with request := some r2 }, acts1 ++ decoded.2 ++ [Action.dispatch r2])

end HTTPConnection

/-- The connection events the reactor can deliver: completion of the two
stream reads, completion of a stream write, the idle timer firing, and
the handler invoking `write`/`finish`. -/
inductive Event where
  | headersArrived (data : String)
  | bodyArrived (data : String)
  | writeCompleted
  | timerFired
  | handlerWrite (chunk : String)
  | handlerFinish
  deriving Repr, DecidableEq

namespace HTTPConnection

/-- One reactor event delivered to the connection.  A write-completion
callback runs once the stream has drained, so the stream is no longer
writing when `_on_write_complete` is entered. -/
def step (mp : MultipartDecoder) (c : HTTPConnection) : Event → HTTPConnection × List Action
  | Event.headersArrived data => c.on_headers data
  | Event.bodyArrived data => c.on_request_body mp data
  | Event.writeCompleted => HTTPConnection.on_write_complete { c with stream.writing := false }
  | Event.timerFired => c.handle_timeout
  | Event.handlerWrite chunk => c.write chunk
  | Event.handlerFinish => c.finish

/-- Deliver a sequence of events, collecting all emitted actions. -/
def run (mp : MultipartDecoder) : HTTPConnection → List Event → HTTPConnection × List Action
  | c, [] => (c, [])
  | c, e :: es =>
    let se := step mp c e
    let rest := run mp se.1 es
    (rest.1, se.2 ++ rest.2)

end HTTPConnection

/-- Whether an action arms the idle timer. -/
def Action.isArm : Action → Bool
  | Action.addTimeout _ => true
  | _ => false

/-! ### `get_ssl_certificate`

The stream's socket is an external collaborator; what its
`getpeercert()` call does is modelled explicitly. -/

/-- What evaluating `stream.socket.getpeercert()` does. -/
inductive PeerCertCall where
  | returns (cert : Option String)
  | raisesSslError
  | raisesAttributeError
  deriving Repr, DecidableEq

/-- Outcome of a TLS certificate fetch on a TLS socket. -/
inductive TlsFetch where
  | cert (c : Option String)
  | sslFailure
  deriving Repr, DecidableEq

/-- Modelled from the spec and the Python standard library: on a TLS
socket `getpeercert()` returns the peer certificate (possibly `None`) or
raises `ssl.SSLError`; a plain socket object has no `getpeercert`
attribute, so the lookup raises `AttributeError`. -/
def socketGetpeercert (is_tls : Bool) (fetch : TlsFetch) : PeerCertCall :=
  if is_tls then
    match fetch with
    | TlsFetch.cert c => PeerCertCall.returns c
    | TlsFetch.sslFailure => PeerCertCall.raisesSslError
  else PeerCertCall.raisesAttributeError

/-- `HTTPRequest.get_ssl_certificate`: return
`self.connection.stream.socket.getpeercert()`, turning an `ssl.SSLError`
into `None`; any other exception propagates (`.error`). -/
def get_ssl_certificate (call : PeerCertCall) : Except String (Option String) :=
  match call with
  | PeerCertCall.returns cert => Except.ok cert
  | PeerCertCall.raisesSslError => Except.ok none
  | PeerCertCall.raisesAttributeError => Except.error "AttributeError"

/-! ### Claim-side specification functions -/

/-- The keep-alive decision as the specification words it: disconnect when
`no_keep_alive` is set; for HTTP/1.1 disconnect iff the `Connection`
header equals the literal `"close"`; for HTTP/1.0 or earlier stay open
exactly when the response is framed (`Content-Length` present, or method
HEAD or GET) and the `Connection` header equals the literal
`"Keep-Alive"`; disconnect unconditionally otherwise. -/
def keepAliveDisconnectSpec (no_keep_alive : Bool) (r : HTTPRequest) : Bool :=
  if no_keep_alive then true
  else if r.version = "HTTP/1.1" then r.headers.get "Connection" = some "close"
  else if (r.headers.mem "Content-Length" ∨ r.method = "HEAD" ∨ r.method = "GET") ∧
      r.headers.get "Connection" = some "Keep-Alive" then false
  else true

/-- First present value in a list of optional header lookups, as the
specification words the proxy-header chains. -/
def firstPresent (xs : List (Option String)) : Option String :=
  xs.findSome? id

/-- The arguments invariant of the specification: no name maps to an
empty list and no value list contains the empty string. -/
def ArgsInv (args : List (String × List String)) : Prop :=
  ∀ p ∈ args, p.2 ≠ [] ∧ ∀ v ∈ p.2, v ≠ ""

/-! ### Concrete fixtures for witnesses and counterexamples -/

/-- A multipart decoder that adds nothing, used to instantiate trace
statements. -/
def trivialDecoder : HTTPConnection.MultipartDecoder := fun _ _ args => args

def sampleStream : IOStream :=
  { closed := false, writing := false, is_ssl := false, max_buffer_size := 1000 }

def sampleRequest : HTTPRequest :=
  HTTPRequest.make "GET" "/index" "HTTP/1.1" ⟨[("Host", "x")]⟩ none (some "1.2.3.4")
    none none true false false

/-- A connection with an armed idle timer and an unfinished in-flight
request. -/
def sampleConn : HTTPConnection :=
  { stream := sampleStream, address := "1.2.3.4", no_keep_alive := false,
    xheaders := false, connection_timeout := 5, timeout_handle := some 3,
    next_handle := 4, request := some sampleRequest, request_finished := false }

/-- A fresh connection with the idle timeout disabled. -/
def cexConn : HTTPConnection :=
  { stream := sampleStream, address := "1.2.3.4", no_keep_alive := false,
    xheaders := false, connection_timeout := -1, timeout_handle := none,
    next_handle := 0, request := none, request_finished := false }

def nkaConn : HTTPConnection := { sampleConn with no_keep_alive := true }

def kaConn : HTTPConnection := { sampleConn with request_finished := true }

def closedConn : HTTPConnection := { sampleConn with stream.closed := true }

def writingConn : HTTPConnection := { sampleConn with stream.writing := true }

/-- A request whose `Content-Length` value is not numeric. -/
def badCLData : String := "GET / HTTP/1.1\r\nContent-Length: abc\r\n\r\n"

/-- Headers announcing a body and expecting a `100 (Continue)`. -/
def contHeaders : HTTPHeaders :=
  ⟨[("Content-Length", "11"), ("Expect", "100-continue")]⟩

/-- Headers with an empty `Content-Length` value. -/
def emptyCLHeaders : HTTPHeaders := ⟨[("Content-Length", ""), ("Expect", "100-continue")]⟩

/-- A POST request with a form-encoded body pending. -/
def postRequest : HTTPRequest :=
  HTTPRequest.make "POST" "/p" "HTTP/1.1"
    ⟨[("Content-Type", "application/x-www-form-urlencoded")]⟩ none (some "1.2.3.4")
    none none true false false

/-- A connection waiting for `postRequest`'s body. -/
def bodyConn : HTTPConnection := { cexConn with request := some postRequest }

/-- The request dispatched after `bodyConn` receives the body `"x=1&y="`. -/
def decodedPostRequest : HTTPRequest :=
  (HTTPConnection.decodeBody trivialDecoder { postRequest with body := "x=1&y=" } "x=1&y=").1

/-! ### Structural lemmas about the connection methods -/

namespace HTTPConnection

lemma reset_timeout_field (c : HTTPConnection) :
    ((c.reset_connection_timeout).1).connection_timeout = c.connection_timeout := by
  unfold reset_connection_timeout
  split <;> rfl

lemma reset_of_disabled (c : HTTPConnection) (h : c.connection_timeout = -1) :
    c.reset_connection_timeout = (c, []) := by
  simp [reset_connection_timeout, h]

lemma reset_acts_cases (c : HTTPConnection) :
    (c.reset_connection_timeout).2 = [] ∨
    (c.reset_connection_timeout).2 = [Action.addTimeout c.next_handle] ∨
    ∃ h0, c.timeout_handle = some h0 ∧
      (c.reset_connection_timeout).2 =
        [Action.removeTimeout h0, Action.addTimeout c.next_handle] := by
  unfold reset_connection_timeout remove_connection_timeout
  split
  · exact Or.inl rfl
  · cases h : c.timeout_handle with
    | none => exact Or.inr (Or.inl (by simp))
    | some h0 => exact Or.inr (Or.inr ⟨h0, rfl, by simp⟩)

lemma reset_acts_timer_only (c : HTTPConnection) :
    ∀ a ∈ (c.reset_connection_timeout).2,
      (∃ h0, a = Action.addTimeout h0) ∨ (∃ h0, a = Action.removeTimeout h0) := by
  rcases reset_acts_cases c with h | h | ⟨h0, _, h⟩ <;> rw [h] <;> intro a ha <;>
    simp at ha
  · exact Or.inl ⟨c.next_handle, ha⟩
  · rcases ha with ha | ha
    · exact Or.inr ⟨h0, ha⟩
    · exact Or.inl ⟨c.next_handle, ha⟩

lemma reset_arm_mem (c : HTTPConnection) (h : c.connection_timeout ≠ -1) :
    Action.addTimeout c.next_handle ∈ (c.reset_connection_timeout).2 := by
  unfold reset_connection_timeout
  split
  · exact absurd (by assumption) h
  · simp

/-- The request `handle_parsed` constructs and stores. -/
def parsedRequest (c : HTTPConnection) (m u v : String) (hd : HTTPHeaders) : HTTPRequest :=
  HTTPRequest.make m u v hd none (some c.address) none none true c.xheaders c.stream.is_ssl

lemma handle_parsed_cases (c : HTTPConnection) (m u v : String) (hd : HTTPHeaders) :
    (∃ acts, c.handle_parsed m u v hd =
        OnHeadersOutcome.ok { c with request := some (parsedRequest c m u v hd) } acts ∧
        ∀ a ∈ acts, (∃ s, a = Action.streamWrite s) ∨ (∃ n, a = Action.readBytes n) ∨
          (∃ r, a = Action.dispatch r)) ∨
    c.handle_parsed m u v hd =
      OnHeadersOutcome.badRequest { c with request := some (parsedRequest c m u v hd) }
        "Content-Length too long" ∨
    c.handle_parsed m u v hd =
      OnHeadersOutcome.uncaught { c with request := some (parsedRequest c m u v hd) }
        "ValueError: invalid literal for int" := by
  simp only [handle_parsed, parsedRequest]
  split
  · split
    · exact Or.inr (Or.inr rfl)
    · split
      · exact Or.inr (Or.inl rfl)
      · refine Or.inl ⟨_, rfl, ?_⟩
        intro a ha
        split at ha <;> simp at ha
        · rcases ha with ha | ha
          · exact Or.inl ⟨_, ha⟩
          · exact Or.inr (Or.inl ⟨_, ha⟩)
        · exact Or.inr (Or.inl ⟨_, ha⟩)
  · refine Or.inl ⟨_, rfl, ?_⟩
    intro a ha
    simp at ha
    exact Or.inr (Or.inr ⟨_, ha⟩)

lemma on_headers_try_cases (c : HTTPConnection) (data : String) :
    (∃ msg, c.on_headers_try data = OnHeadersOutcome.badRequest c msg) ∨
    (∃ req msg, c.on_headers_try data =
        OnHeadersOutcome.badRequest { c with request := some req } msg) ∨
    (∃ req msg, c.on_headers_try data =
        OnHeadersOutcome.uncaught { c with request := some req } msg) ∨
    (∃ req acts, c.on_headers_try data =
        OnHeadersOutcome.ok { c with request := some req } acts ∧
        ∀ a ∈ acts, (∃ s, a = Action.streamWrite s) ∨ (∃ n, a = Action.readBytes n) ∨
          (∃ r, a = Action.dispatch r)) := by
  simp only [on_headers_try]
  split
  · split
    · rcases handle_parsed_cases c _ _ _ (HTTPHeaders.parse (pySliceFrom data (strFind data "\r\n"))) with
        ⟨acts, h, hacts⟩ | h | h
      · exact Or.inr (Or.inr (Or.inr ⟨_, acts, h, hacts⟩))
      · exact Or.inr (Or.inl ⟨_, _, h⟩)
      · exact Or.inr (Or.inr (Or.inl ⟨_, _, h⟩))
    · exact Or.inl ⟨_, rfl⟩
  · exact Or.inl ⟨_, rfl⟩

lemma on_headers_shape (c : HTTPConnection) (data : String) :
    ∃ rest, (c.on_headers data).2 = (c.reset_connection_timeout).2 ++ rest := by
  rcases on_headers_try_cases (c.reset_connection_timeout).1 data with
    ⟨msg, h⟩ | ⟨req, msg, h⟩ | ⟨req, msg, h⟩ | ⟨req, acts, h, _⟩ <;>
    · simp only [on_headers, h]
      exact ⟨_, rfl⟩

lemma on_headers_timeout_field (c : HTTPConnection) (data : String) :
    ((c.on_headers data).1).connection_timeout = c.connection_timeout := by
  rcases on_headers_try_cases (c.reset_connection_timeout).1 data with
    ⟨msg, h⟩ | ⟨req, msg, h⟩ | ⟨req, msg, h⟩ | ⟨req, acts, h, _⟩ <;>
    simp [on_headers, h, reset_timeout_field]

lemma on_headers_no_arm (c : HTTPConnection) (data : String)
    (hdis : c.connection_timeout = -1) :
    ∀ a ∈ (c.on_headers data).2, a.isArm = false := by
  have hr := reset_of_disabled c hdis
  rcases on_headers_try_cases (c.reset_connection_timeout).1 data with
    ⟨msg, h⟩ | ⟨req, msg, h⟩ | ⟨req, msg, h⟩ | ⟨req, acts, h, hacts⟩ <;>
    simp only [hr] at h <;> simp only [on_headers, h, hr] <;> intro a ha <;> simp at ha
  · rcases ha with ha | ha <;> simp [ha, Action.isArm]
  · rcases ha with ha | ha <;> simp [ha, Action.isArm]
  · simp [ha, Action.isArm]
  · rcases hacts a ha with ⟨s, rfl⟩ | ⟨n, rfl⟩ | ⟨r, rfl⟩ <;> rfl

lemma decodeBody_acts (mp : MultipartDecoder) (r1 : HTTPRequest) (data : String) :
    (decodeBody mp r1 data).2 = [] ∨
    (decodeBody mp r1 data).2 = [Action.logWarningMultipart] := by
  simp only [decodeBody]
  split
  · split
    · exact Or.inl rfl
    · split
      · split
        · exact Or.inl rfl
        · exact Or.inr rfl
      · exact Or.inl rfl
  · exact Or.inl rfl

lemma on_request_body_shape (c : HTTPConnection) (mp : MultipartDecoder) (data : String) :
    ∃ rest, (c.on_request_body mp data).2 = (c.reset_connection_timeout).2 ++ rest := by
  cases h : ((c.reset_connection_timeout).1).request <;>
    · simp only [on_request_body, h, List.append_assoc]
      exact ⟨_, rfl⟩

lemma on_request_body_timeout_field (c : HTTPConnection) (mp : MultipartDecoder)
    (data : String) :
    ((c.on_request_body mp data).1).connection_timeout = c.connection_timeout := by
  cases h : ((c.reset_connection_timeout).1).request <;>
    simp [on_request_body, h, reset_timeout_field]

lemma on_request_body_no_arm (c : HTTPConnection) (mp : MultipartDecoder) (data : String)
    (hdis : c.connection_timeout = -1) :
    ∀ a ∈ (c.on_request_body mp data).2, a.isArm = false := by
  have hr := reset_of_disabled c hdis
  cases h : ((c.reset_connection_timeout).1).request with
  | none =>
    simp only [hr] at h
    simp only [on_request_body, h, hr]
    intro a ha
    simp at ha
    simp [ha, Action.isArm]
  | some r =>
    simp only [hr] at h
    simp only [on_request_body, h, hr]
    intro a ha
    simp at ha
    rcases ha with ha | ha
    · rcases decodeBody_acts mp { r with body := data } data with hd | hd <;> rw [hd] at ha
      · simp at ha
      · simp at ha
        simp [ha, Action.isArm]
    · simp [ha, Action.isArm]

lemma handle_timeout_timeout_field (c : HTTPConnection) :
    ((c.handle_timeout).1).connection_timeout = c.connection_timeout := by
  unfold handle_timeout
  split
  · rfl
  · split
    · exact reset_timeout_field c
    · rfl

lemma handle_timeout_no_arm (c : HTTPConnection) (hdis : c.connection_timeout = -1) :
    ∀ a ∈ (c.handle_timeout).2, a.isArm = false := by
  unfold handle_timeout
  split
  · simp
  · split
    · simp [reset_of_disabled c hdis]
    · simp [Action.isArm]

lemma finish_request_timeout_field (c : HTTPConnection) :
    ((c.finish_request).1).connection_timeout = c.connection_timeout := by
  unfold finish_request
  split
  · rfl
  · split
    · rfl
    · split
      · rfl
      · exact reset_timeout_field _

lemma finish_request_no_arm (c : HTTPConnection) (hdis : c.connection_timeout = -1) :
    ∀ a ∈ (c.finish_request).2, a.isArm = false := by
  unfold finish_request
  split
  · simp [Action.isArm]
  · split
    · simp [Action.isArm]
    · split
      · simp [Action.isArm]
      · have : (({ c with request := none, request_finished := false } :
            HTTPConnection).reset_connection_timeout) =
            ({ c with request := none, request_finished := false }, []) :=
          reset_of_disabled _ hdis
        simp [this, Action.isArm]

lemma on_write_complete_timeout_field (c : HTTPConnection) :
    ((c.on_write_complete).1).connection_timeout = c.connection_timeout := by
  unfold on_write_complete
  split
  · exact finish_request_timeout_field c
  · rfl

lemma on_write_complete_no_arm (c : HTTPConnection) (hdis : c.connection_timeout = -1) :
    ∀ a ∈ (c.on_write_complete).2, a.isArm = false := by
  unfold on_write_complete
  split
  · exact finish_request_no_arm c hdis
  · simp

lemma write_timeout_field (c : HTTPConnection) (chunk : String) :
    ((c.write chunk).1).connection_timeout = c.connection_timeout := by
  unfold write
  split
  · rfl
  · split <;> rfl

lemma write_no_arm (c : HTTPConnection) (chunk : String) :
    ∀ a ∈ (c.write chunk).2, a.isArm = false := by
  unfold write
  split
  · simp [Action.isArm]
  · split <;> simp [Action.isArm]

lemma finish_timeout_field (c : HTTPConnection) :
    ((c.finish).1).connection_timeout = c.connection_timeout := by
  simp only [finish]
  split
  · rfl
  · split
    · rfl
    · exact finish_request_timeout_field _

lemma finish_no_arm (c : HTTPConnection) (hdis : c.connection_timeout = -1) :
    ∀ a ∈ (c.finish).2, a.isArm = false := by
  simp only [finish]
  split
  · simp [Action.isArm]
  · split
    · simp
    · exact finish_request_no_arm _ hdis

lemma step_timeout_field (mp : MultipartDecoder) (c : HTTPConnection) (e : Event) :
    ((step mp c e).1).connection_timeout = c.connection_timeout := by
  cases e with
  | headersArrived data => exact on_headers_timeout_field c data
  | bodyArrived data => exact on_request_body_timeout_field c mp data
  | writeCompleted => exact on_write_complete_timeout_field _
  | timerFired => exact handle_timeout_timeout_field c
  | handlerWrite chunk => exact write_timeout_field c chunk
  | handlerFinish => exact finish_timeout_field c

lemma step_no_arm (mp : MultipartDecoder) (c : HTTPConnection) (e : Event)
    (hdis : c.connection_timeout = -1) :
    ∀ a ∈ (step mp c e).2, a.isArm = false := by
  cases e with
  | headersArrived data => exact on_headers_no_arm c data hdis
  | bodyArrived data => exact on_request_body_no_arm c mp data hdis
  | writeCompleted => exact on_write_complete_no_arm _ hdis
  | timerFired => exact handle_timeout_no_arm c hdis
  | handlerWrite chunk => exact write_no_arm c chunk
  | handlerFinish => exact finish_no_arm _ hdis

lemma reset_stream (c : HTTPConnection) :
    ((c.reset_connection_timeout).1).stream = c.stream := by
  unfold reset_connection_timeout
  split <;> rfl

lemma reset_address (c : HTTPConnection) :
    ((c.reset_connection_timeout).1).address = c.address := by
  unfold reset_connection_timeout
  split <;> rfl

lemma reset_request (c : HTTPConnection) :
    ((c.reset_connection_timeout).1).request = c.request := by
  unfold reset_connection_timeout
  split <;> rfl

/-- The combined `disconnect` computation of `_finish_request` agrees
with the specification's wording of the keep-alive decision. -/
lemma disconnect_decision_eq_spec (nka : Bool) (r : HTTPRequest) :
    (if nka then true else finish_disconnect_decision r) =
      keepAliveDisconnectSpec nka r := by
  by_cases hn : nka
  · simp [hn, keepAliveDisconnectSpec]
  · simp only [hn, if_false, Bool.false_eq_true]
    unfold finish_disconnect_decision keepAliveDisconnectSpec
    simp only [HTTPRequest.supports_http_1_1, hn]
    by_cases hv : r.version = "HTTP/1.1"
    · simp [hv]
    · simp only [hv]
      by_cases hf : r.headers.mem "Content-Length" ∨ r.method = "HEAD" ∨ r.method = "GET"
      · by_cases hk : r.headers.get "Connection" = some "Keep-Alive" <;> simp [hf, hk]
      · simp [hf]

/-- `_finish_request` emits a `streamClose` exactly when the combined
disconnect decision is true (given a request is in flight). -/
lemma finish_request_close_iff (c : HTTPConnection) (r : HTTPRequest)
    (h : c.request = some r) :
    Action.streamClose ∈ (c.finish_request).2 ↔
      (if c.no_keep_alive then true else finish_disconnect_decision r) = true := by
  unfold finish_request
  by_cases hn : c.no_keep_alive
  · simp [hn]
  · simp only [hn, if_false, h, Bool.false_eq_true]
    by_cases hd : finish_disconnect_decision r
    · simp [hd]
    · simp [hd]
      intro hmem
      rcases reset_acts_timer_only _ _ hmem with ⟨h0, h1⟩ | ⟨h0, h1⟩ <;> simp at h1

lemma run_no_arm (mp : MultipartDecoder) :
    ∀ (events : List Event) (c : HTTPConnection), c.connection_timeout = -1 →
      ∀ a ∈ (run mp c events).2, a.isArm = false := by
  intro events
  induction events with
  | nil => intro c _ a ha; simp [run] at ha
  | cons e es ih =>
    intro c hdis a ha
    simp only [run, List.mem_append] at ha
    rcases ha with ha | ha
    · exact step_no_arm mp c e hdis a ha
    · exact ih (step mp c e).1 ((step_timeout_field mp c e).trans hdis) a ha

end HTTPConnection

/-! ### Lemmas about the arguments invariant -/

lemma filterArguments_inv (args : List (String × List String)) :
    ArgsInv (filterArguments args) := by
  intro p hp
  simp only [filterArguments, List.mem_filterMap] at hp
  obtain ⟨q, hq, hpq⟩ := hp
  split at hpq
  · rename_i hne
    injection hpq with hpq
    subst hpq
    refine ⟨hne, ?_⟩
    intro v hv
    simp only [List.mem_filter, decide_eq_true_eq] at hv
    exact hv.2
  · cases hpq

lemma extendArg_inv (args : List (String × List String)) (k : String) (vs : List String)
    (h : ArgsInv args) (hvs : vs ≠ []) (hvv : ∀ v ∈ vs, v ≠ "") :
    ArgsInv (extendArg args k vs) := by
  induction args with
  | nil =>
    intro p hp
    simp only [extendArg, List.mem_singleton] at hp
    subst hp
    exact ⟨hvs, hvv⟩
  | cons q rest ih =>
    obtain ⟨k0, vs0⟩ := q
    have hq := h (k0, vs0) (by simp)
    have hrest : ArgsInv rest := fun p hp => h p (by simp [hp])
    intro p hp
    simp only [extendArg] at hp
    split at hp
    · rcases List.mem_cons.mp hp with rfl | hp
      · refine ⟨by simp [hq.1], ?_⟩
        intro v hv
        rcases List.mem_append.mp hv with hv | hv
        · exact hq.2 v hv
        · exact hvv v hv
      · exact hrest p hp
    · rcases List.mem_cons.mp hp with rfl | hp
      · exact hq
      · exact ih hrest p hp

lemma mergeFormArguments_inv :
    ∀ (parsed args : List (String × List String)), ArgsInv args →
      ArgsInv (mergeFormArguments args parsed) := by
  intro parsed
  induction parsed with
  | nil => exact fun args h => h
  | cons q rest ih =>
    intro args h
    have hstep : mergeFormArguments args (q :: rest) =
        mergeFormArguments
          (if (q.2.filter fun v => v ≠ "") ≠ [] then
            extendArg args q.1 (q.2.filter fun v => v ≠ "")
          else args) rest := by
      simp only [mergeFormArguments, List.foldl_cons]
    rw [hstep]
    apply ih
    split
    · rename_i hne
      refine extendArg_inv _ _ _ h hne ?_
      intro v hv
      simp only [List.mem_filter, decide_eq_true_eq] at hv
      exact hv.2
    · exact h

lemma make_arguments_inv (m u v : String) (hd : HTTPHeaders) (b rip proto host : Option String)
    (cp xh ssl : Bool) :
    ArgsInv (HTTPRequest.make m u v hd b rip proto host cp xh ssl).arguments := by
  have : (HTTPRequest.make m u v hd b rip proto host cp xh ssl).arguments =
      filterArguments (parse_qs_bytes (urlsplitPathQuery u).2) := rfl
  rw [this]
  exact filterArguments_inv _

lemma decodeBody_inv (mp : HTTPConnection.MultipartDecoder) (r1 : HTTPRequest) (data : String)
    (hmp : ∀ bnd bod args, ArgsInv args → ArgsInv (mp bnd bod args))
    (h : ArgsInv r1.arguments) :
    ArgsInv ((HTTPConnection.decodeBody mp r1 data).1).arguments := by
  simp only [HTTPConnection.decodeBody]
  split
  · split
    · exact mergeFormArguments_inv _ _ h
    · split
      · split
        · exact hmp _ _ _ h
        · exact h
      · exact h
  · exact h

lemma on_request_body_request_inv (c : HTTPConnection)
    (mp : HTTPConnection.MultipartDecoder) (data : String) (r r2 : HTTPRequest)
    (hmp : ∀ bnd bod args, ArgsInv args → ArgsInv (mp bnd bod args))
    (hreq : c.request = some r) (hinv : ArgsInv r.arguments)
    (hr2 : ((c.on_request_body mp data).1).request = some r2) :
    ArgsInv r2.arguments := by
  have hreq2 : ((c.reset_connection_timeout).1).request = some r := by
    rw [HTTPConnection.reset_request]; exact hreq
  simp only [HTTPConnection.on_request_body, hreq2] at hr2
  simp at hr2
  have hd := decodeBody_inv mp { r with body := data } data hmp (by simpa using hinv)
  rwa [hr2] at hd

/-! ### Claim theorems -/

open HTTPConnection

/-- C1: in the finish procedure, the stream is closed exactly when the
keep-alive decision as the spec words it says disconnect — `no_keep_alive`
forces disconnection; HTTP/1.1 disconnects iff `Connection` equals the
literal `"close"`; HTTP/1.0 or earlier stays open exactly when a
`Content-Length` header was present or the method is HEAD or GET and
`Connection` equals the literal `"Keep-Alive"`, and disconnects
unconditionally otherwise — and the source's decision computation equals
the spec-side decision on every input. -/
theorem claim_c1_keep_alive_decision (c : HTTPConnection) (r : HTTPRequest)
    (h : c.request = some r) :
    (Action.streamClose ∈ (c.finish_request).2 ↔
      keepAliveDisconnectSpec c.no_keep_alive r = true) ∧
    (∀ (nka : Bool) (r2 : HTTPRequest),
      (if nka then true else finish_disconnect_decision r2) =
        keepAliveDisconnectSpec nka r2) := by
  refine ⟨?_, fun nka r2 => disconnect_decision_eq_spec nka r2⟩
  rw [finish_request_close_iff c r h, disconnect_decision_eq_spec]

/-- Witness for C1 at a concrete connection with an in-flight request. -/
theorem claim_c1_keep_alive_decision_witness :
    (Action.streamClose ∈ (sampleConn.finish_request).2 ↔
      keepAliveDisconnectSpec sampleConn.no_keep_alive sampleRequest = true) ∧
    (∀ (nka : Bool) (r2 : HTTPRequest),
      (if nka then true else finish_disconnect_decision r2) =
        keepAliveDisconnectSpec nka r2) :=
  claim_c1_keep_alive_decision sampleConn sampleRequest rfl

/-- C2 fails as stated: a non-numeric `Content-Length` (here `"abc"`) is a
parse error, yet `_on_headers` neither logs at info nor closes the stream —
the `int` coercion raises a `ValueError` that the handler, which catches
only `_BadRequestException`, lets propagate. -/
theorem claim_c2_counterexample :
    (cexConn.on_headers badCLData).2 =
      [Action.raiseUncaught "ValueError: invalid literal for int"] ∧
    ((cexConn.on_headers badCLData).1).stream.closed = false := by
  constructor <;> decide

/-- C2 (amended): every request the `try` block of `_on_headers` rejects
with the internal bad-request exception — a request line that does not
split on ASCII space into exactly three tokens, a version not beginning
with `HTTP/`, or a numeric `Content-Length` exceeding the stream's
`max_buffer_size` — is logged at info level with the peer IP and the
message, and the stream is closed with no response bytes written; other
parse errors, such as a non-numeric `Content-Length`, instead propagate
as uncaught exceptions without the info log or the close. -/
theorem claim_c2_amended (c cb : HTTPConnection) (data msg : String)
    (h : ((c.reset_connection_timeout).1).on_headers_try data =
      OnHeadersOutcome.badRequest cb msg) :
    c.on_headers data =
      ({ cb with stream.closed := true },
        (c.reset_connection_timeout).2 ++
          [Action.logInfoMalformed cb.address msg, Action.streamClose]) ∧
    cb.address = c.address ∧
    (∀ s, Action.streamWrite s ∉ (c.on_headers data).2) ∧
    Action.logInfoMalformed c.address msg ∈ (c.on_headers data).2 ∧
    Action.streamClose ∈ (c.on_headers data).2 := by
  have hmain : c.on_headers data =
      ({ cb with stream.closed := true },
        (c.reset_connection_timeout).2 ++
          [Action.logInfoMalformed cb.address msg, Action.streamClose]) := by
    simp only [on_headers, h]
  have haddr : cb.address = c.address := by
    rcases on_headers_try_cases (c.reset_connection_timeout).1 data with
      ⟨msg2, h2⟩ | ⟨req, msg2, h2⟩ | ⟨req, msg2, h2⟩ | ⟨req, acts, h2, _⟩ <;>
      rw [h] at h2
    · injection h2 with hcb _
      rw [hcb]
      exact reset_address c
    · injection h2 with hcb _
      rw [hcb]
      simpa using reset_address c
    · simp at h2
    · simp at h2
  refine ⟨hmain, haddr, ?_, ?_, ?_⟩
  · intro s hs
    simp only [hmain, List.mem_append] at hs
    rcases hs with hs | hs
    · rcases reset_acts_timer_only _ _ hs with ⟨h0, h1⟩ | ⟨h0, h1⟩ <;> simp at h1
    · simp at hs
  · rw [← haddr]
    simp [hmain]
  · simp [hmain]

/-- Witness for the amended C2: a two-token request line on a concrete
connection is logged and the stream closed. -/
theorem claim_c2_amended_witness :
    cexConn.on_headers "GET /\r\n\r\n" =
      ({ cexConn with stream.closed := true },
        (cexConn.reset_connection_timeout).2 ++
          [Action.logInfoMalformed cexConn.address "Malformed HTTP request line",
            Action.streamClose]) ∧
    cexConn.address = cexConn.address ∧
    (∀ s, Action.streamWrite s ∉ (cexConn.on_headers "GET /\r\n\r\n").2) ∧
    Action.logInfoMalformed cexConn.address "Malformed HTTP request line" ∈
      (cexConn.on_headers "GET /\r\n\r\n").2 ∧
    Action.streamClose ∈ (cexConn.on_headers "GET /\r\n\r\n").2 :=
  claim_c2_amended cexConn cexConn "GET /\r\n\r\n" "Malformed HTTP request line" (by decide)

/-- C3: the arguments mapping never contains an empty-string value and
never maps a name to an empty list — established by query parsing at
construction, preserved by form-body decoding (given the external
multipart decoder preserves it) — and the query string
`"a=1&a=2&b=&c=3"` decodes to exactly `a ↦ [1, 2], c ↦ [3]`. -/
theorem claim_c3_arguments_invariant :
    (∀ (m u v : String) (hd : HTTPHeaders) (b rip proto host : Option String)
        (cp xh ssl : Bool),
      ArgsInv (HTTPRequest.make m u v hd b rip proto host cp xh ssl).arguments) ∧
    (∀ (c : HTTPConnection) (mp : MultipartDecoder) (data : String) (r r2 : HTTPRequest),
      (∀ bnd bod args, ArgsInv args → ArgsInv (mp bnd bod args)) →
      c.request = some r → ArgsInv r.arguments →
      ((c.on_request_body mp data).1).request = some r2 → ArgsInv r2.arguments) ∧
    (HTTPRequest.make "GET" "/q?a=1&a=2&b=&c=3" "HTTP/1.1" ⟨[]⟩ none none none none
        false false false).arguments = [("a", ["1", "2"]), ("c", ["3"])] :=
  ⟨fun m u v hd b rip proto host cp xh ssl =>
      make_arguments_inv m u v hd b rip proto host cp xh ssl,
    fun c mp data r r2 hmp hreq hinv hr2 =>
      on_request_body_request_inv c mp data r r2 hmp hreq hinv hr2,
    by decide⟩

/-- Witness for C3 at concrete requests: the constructed arguments of the
claim's query string satisfy the invariant and equal the stated mapping,
and the invariant survives urlencoded body decoding. -/
theorem claim_c3_arguments_invariant_witness :
    ArgsInv (HTTPRequest.make "GET" "/q?a=1&a=2&b=&c=3" "HTTP/1.1" ⟨[]⟩ none none none
      none false false false).arguments ∧
    ArgsInv decodedPostRequest.arguments ∧
    (HTTPRequest.make "GET" "/q?a=1&a=2&b=&c=3" "HTTP/1.1" ⟨[]⟩ none none none none
        false false false).arguments = [("a", ["1", "2"]), ("c", ["3"])] :=
  ⟨claim_c3_arguments_invariant.1 "GET" "/q?a=1&a=2&b=&c=3" "HTTP/1.1" ⟨[]⟩ none none
      none none false false false,
    claim_c3_arguments_invariant.2.1 bodyConn trivialDecoder "x=1&y=" postRequest
      decodedPostRequest (fun _ _ _ h => h) rfl
      (by simp only [ArgsInv]; decide) (by decide),
    claim_c3_arguments_invariant.2.2⟩

/-- C4: when the parsed headers carry a non-empty `Content-Length` that
coerces to `n ≤ max_buffer_size` and `Expect: 100-continue`, the
connection writes exactly `HTTP/1.1 100 (Continue)\r\n\r\n` and then
schedules the body read of `n` bytes — and the surrounding timer reset
contributes no stream writes. -/
theorem claim_c4_100_continue (c : HTTPConnection) (m u v : String) (hd : HTTPHeaders)
    (s : String) (n : Int) (hcl : hd.get "Content-Length" = some s) (hne : s ≠ "")
    (hn : pyInt s = some n) (hmax : n ≤ (c.stream.max_buffer_size : Int))
    (hexp : hd.get "Expect" = some "100-continue") :
    c.handle_parsed m u v hd =
      OnHeadersOutcome.ok { c with request := some (parsedRequest c m u v hd) }
        [Action.streamWrite "HTTP/1.1 100 (Continue)\r\n\r\n", Action.readBytes n] ∧
    ∀ str, Action.streamWrite str ∉ (c.reset_connection_timeout).2 := by
  constructor
  · have hng : ¬ (n > (c.stream.max_buffer_size : Int)) := not_lt.mpr hmax
    simp [handle_parsed, parsedRequest, hcl, pyTruthy, hne, hn, hng, hexp]
  · intro str hs
    rcases reset_acts_timer_only _ _ hs with ⟨h0, h1⟩ | ⟨h0, h1⟩ <;> simp at h1

/-- Witness for C4 at a concrete header block with `Content-Length: 11`. -/
theorem claim_c4_100_continue_witness :
    cexConn.handle_parsed "POST" "/p" "HTTP/1.1" contHeaders =
      OnHeadersOutcome.ok
        { cexConn with request := some (parsedRequest cexConn "POST" "/p" "HTTP/1.1" contHeaders) }
        [Action.streamWrite "HTTP/1.1 100 (Continue)\r\n\r\n", Action.readBytes 11] ∧
    ∀ str, Action.streamWrite str ∉ (cexConn.reset_connection_timeout).2 :=
  claim_c4_100_continue cexConn "POST" "/p" "HTTP/1.1" contHeaders "11" 11
    (by decide) (by decide) (by decide) (by decide) (by decide)

/-- C5: with xheaders enabled, `remote_ip` is the first present of
`X-Real-Ip`, `X-Forwarded-For` and the original peer IP, and `protocol`
is the first present of `X-Scheme`, `X-Forwarded-Proto` and the original
protocol, coerced to `"http"` unless it is `"http"` or `"https"`; in
particular `X-Scheme: ftp` yields `"http"`. -/
theorem claim_c5_xheaders (m u v : String) (hd : HTTPHeaders)
    (b rip proto host : Option String) (ssl : Bool) :
    ((HTTPRequest.make m u v hd b rip proto host true true ssl).remote_ip =
      firstPresent [hd.get "X-Real-Ip", hd.get "X-Forwarded-For", rip]) ∧
    ((HTTPRequest.make m u v hd b rip proto host true true ssl).protocol =
      (if firstPresent [hd.get "X-Scheme", hd.get "X-Forwarded-Proto", proto] = some "http" ∨
          firstPresent [hd.get "X-Scheme", hd.get "X-Forwarded-Proto", proto] = some "https" then
        (firstPresent [hd.get "X-Scheme", hd.get "X-Forwarded-Proto", proto]).getD ""
      else "http")) ∧
    (HTTPRequest.make "GET" "/" "HTTP/1.1" ⟨[("X-Scheme", "ftp")]⟩ none (some "9.9.9.9")
        none none true true false).protocol = "http" := by
  have hchain : ∀ (n1 n2 : String) (d : Option String),
      hd.getOr n1 (hd.getOr n2 d) = firstPresent [hd.get n1, hd.get n2, d] := by
    intro n1 n2 d
    cases h1 : hd.get n1 <;> cases h2 : hd.get n2 <;> cases d <;>
      simp [HTTPHeaders.getOr, firstPresent, h1, h2]
  refine ⟨?_, ?_, by decide⟩
  · simp only [HTTPRequest.make, true_and, if_true, and_self, ite_true]
    rw [← hchain]
  · simp only [HTTPRequest.make, true_and, if_true, and_self, ite_true]
    rw [← hchain]

/-- C10: a `Content-Length` header with an empty value takes the same
path as an absent header: no body read and no interim response in the
action list, the handler dispatched at once with an empty body. -/
theorem claim_c10_empty_content_length (c : HTTPConnection) (m u v : String)
    (hd : HTTPHeaders) (hcl : hd.get "Content-Length" = some "") :
    c.handle_parsed m u v hd =
      OnHeadersOutcome.ok { c with request := some (parsedRequest c m u v hd) }
        [Action.dispatch (parsedRequest c m u v hd)] ∧
    (parsedRequest c m u v hd).body = "" ∧
    (∀ (hd2 : HTTPHeaders) (m2 u2 v2 : String), hd2.get "Content-Length" = none →
      c.handle_parsed m2 u2 v2 hd2 =
        OnHeadersOutcome.ok { c with request := some (parsedRequest c m2 u2 v2 hd2) }
          [Action.dispatch (parsedRequest c m2 u2 v2 hd2)]) := by
  refine ⟨?_, ?_, ?_⟩
  · simp [handle_parsed, parsedRequest, hcl, pyTruthy]
  · simp [parsedRequest, HTTPRequest.make, pyTruthy]
  · intro hd2 m2 u2 v2 h2
    simp [handle_parsed, parsedRequest, h2, pyTruthy]

/-- Witness for C10 at a concrete header block with `Content-Length:`
empty (even alongside `Expect: 100-continue`). -/
theorem claim_c10_empty_content_length_witness :
    cexConn.handle_parsed "GET" "/" "HTTP/1.1" emptyCLHeaders =
      OnHeadersOutcome.ok
        { cexConn with request := some (parsedRequest cexConn "GET" "/" "HTTP/1.1" emptyCLHeaders) }
        [Action.dispatch (parsedRequest cexConn "GET" "/" "HTTP/1.1" emptyCLHeaders)] ∧
    (parsedRequest cexConn "GET" "/" "HTTP/1.1" emptyCLHeaders).body = "" ∧
    (∀ (hd2 : HTTPHeaders) (m2 u2 v2 : String), hd2.get "Content-Length" = none →
      cexConn.handle_parsed m2 u2 v2 hd2 =
        OnHeadersOutcome.ok
          { cexConn with request := some (parsedRequest cexConn m2 u2 v2 hd2) }
          [Action.dispatch (parsedRequest cexConn m2 u2 v2 hd2)]) :=
  claim_c10_empty_content_length cexConn "GET" "/" "HTTP/1.1" emptyCLHeaders (by decide)

/-- C6: with the `-1` sentinel no timer is ever armed over any event
sequence; when the armed timer fires it does nothing on a closed stream,
re-arms without closing while the stream is writing, and closes the
stream otherwise — so the timer never closes a connection mid-write. -/
theorem claim_c6_idle_timeout (c : HTTPConnection) :
    (c.connection_timeout = -1 →
      ∀ (mp : MultipartDecoder) (events : List Event),
        ∀ a ∈ (HTTPConnection.run mp c events).2, a.isArm = false) ∧
    (c.stream.closed = true → c.handle_timeout = (c, [])) ∧
    (c.stream.closed = false → c.stream.writing = true →
      c.handle_timeout = c.reset_connection_timeout ∧
      Action.streamClose ∉ (c.handle_timeout).2 ∧
      ((c.handle_timeout).1).stream.closed = false) ∧
    (c.stream.closed = false → c.stream.writing = false →
      c.handle_timeout = ({ c with stream.closed := true }, [Action.streamClose])) := by
  refine ⟨fun hdis mp events => run_no_arm mp events c hdis, ?_, ?_, ?_⟩
  · intro hc
    simp [handle_timeout, hc]
  · intro hc hw
    have he : c.handle_timeout = c.reset_connection_timeout := by
      simp [handle_timeout, hc, hw]
    refine ⟨he, ?_, ?_⟩
    · rw [he]
      intro hmem
      rcases reset_acts_timer_only _ _ hmem with ⟨h0, h1⟩ | ⟨h0, h1⟩ <;> simp at h1
    · rw [he, reset_stream]
      exact hc
  · intro hc hw
    simp [handle_timeout, hc, hw]

/-- Witness for C6: a disabled-timeout trace arms nothing, and the three
timer-fire cases at concrete connections. -/
theorem claim_c6_idle_timeout_witness :
    Action.addTimeout 0 ∉
      (HTTPConnection.run trivialDecoder cexConn
        [Event.headersArrived "GET / HTTP/1.1\r\n\r\n"]).2 ∧
    closedConn.handle_timeout = (closedConn, []) ∧
    writingConn.handle_timeout = writingConn.reset_connection_timeout ∧
    sampleConn.handle_timeout =
      ({ sampleConn with stream.closed := true }, [Action.streamClose]) := by
  refine ⟨?_, ?_, ?_, ?_⟩
  · intro hmem
    have := (claim_c6_idle_timeout cexConn).1 rfl trivialDecoder
      [Event.headersArrived "GET / HTTP/1.1\r\n\r\n"] _ hmem
    simp [Action.isArm] at this
  · exact (claim_c6_idle_timeout closedConn).2.1 rfl
  · exact ((claim_c6_idle_timeout writingConn).2.2.1 rfl rfl).1
  · exact (claim_c6_idle_timeout sampleConn).2.2.2 rfl rfl

/-- C7 fails as stated: a write completion that arrives before the
handler has finished the request is a connection event on a non-closing
path, yet it performs no actions at all — in particular it does not
re-arm the idle timer even though one is configured and armed. -/
theorem claim_c7_counterexample :
    sampleConn.on_write_complete = (sampleConn, []) ∧
    sampleConn.connection_timeout = 5 ∧
    sampleConn.timeout_handle = some 3 ∧
    sampleConn.stream.closed = false ∧
    sampleConn.request_finished = false := by
  refine ⟨?_, rfl, rfl, rfl, rfl⟩
  decide

/-- C7 (amended): header-read and body-read completions put the timer
re-arm first in their action sequences; a timer fire re-arms exactly when
the stream is open and writing; a write completion acts only when the
handler has finished — closing without re-arm when the keep-alive
decision disconnects, re-arming (before the next header read is
scheduled) when it keeps the connection — and does nothing, in
particular no re-arm, when the request is not finished. -/
theorem claim_c7_rearm_amended (c : HTTPConnection) (mp : MultipartDecoder)
    (data : String) (hto : c.connection_timeout ≠ -1) :
    (∃ rest, (c.on_headers data).2 = (c.reset_connection_timeout).2 ++ rest) ∧
    (∃ rest, (c.on_request_body mp data).2 = (c.reset_connection_timeout).2 ++ rest) ∧
    Action.addTimeout c.next_handle ∈ (c.reset_connection_timeout).2 ∧
    (c.stream.closed = true → c.handle_timeout = (c, [])) ∧
    (c.stream.closed = false → c.stream.writing = true →
      c.handle_timeout = c.reset_connection_timeout) ∧
    (c.stream.closed = false → c.stream.writing = false →
      (c.handle_timeout).2 = [Action.streamClose]) ∧
    (c.request_finished = false → c.on_write_complete = (c, [])) ∧
    (c.request_finished = true → c.no_keep_alive = true →
      (c.on_write_complete).2 = [Action.streamClose]) ∧
    (∀ r, c.request_finished = true → c.no_keep_alive = false → c.request = some r →
      finish_disconnect_decision r = true →
      (c.on_write_complete).2 = [Action.streamClose]) ∧
    (∀ r, c.request_finished = true → c.no_keep_alive = false → c.request = some r →
      finish_disconnect_decision r = false →
      ∃ acts1, (c.on_write_complete).2 = acts1 ++ [Action.readUntilDoubleCrlf] ∧
        Action.addTimeout c.next_handle ∈ acts1) := by
  refine ⟨on_headers_shape c data, on_request_body_shape c mp data, reset_arm_mem c hto,
    ?_, ?_, ?_, ?_, ?_, ?_, ?_⟩
  · intro hc
    simp [handle_timeout, hc]
  · intro hc hw
    simp [handle_timeout, hc, hw]
  · intro hc hw
    simp [handle_timeout, hc, hw]
  · intro hrf
    simp [on_write_complete, hrf]
  · intro hrf hnka
    simp [on_write_complete, hrf, finish_request, hnka]
  · intro r hrf hnka hreq hdec
    simp [on_write_complete, hrf, finish_request, hnka, hreq, hdec]
  · intro r hrf hnka hreq hdec
    refine ⟨(({ c with request := none, request_finished := false } :
        HTTPConnection).reset_connection_timeout).2, ?_, ?_⟩
    · simp [on_write_complete, hrf, finish_request, hnka, hreq, hdec]
    · exact reset_arm_mem _ hto

/-- Witness for the amended C7 at a keep-alive finishing connection. -/
theorem claim_c7_rearm_amended_witness :
    Action.addTimeout kaConn.next_handle ∈ (kaConn.reset_connection_timeout).2 ∧
    Action.readUntilDoubleCrlf ∈ (kaConn.on_write_complete).2 := by
  have h := claim_c7_rearm_amended kaConn trivialDecoder "" (by decide)
  refine ⟨h.2.2.1, ?_⟩
  obtain ⟨acts1, heq, -⟩ :=
    h.2.2.2.2.2.2.2.2.2 sampleRequest rfl rfl rfl (by decide)
  rw [heq]
  simp

/-- C8 fails as stated: the finish procedure's disconnect path closes the
stream without cancelling or dropping the armed idle-timer handle — the
action list is exactly the close, and the handle stays set. -/
theorem claim_c8_counterexample :
    (nkaConn.finish_request).2 = [Action.streamClose] ∧
    ((nkaConn.finish_request).1).timeout_handle = some 3 ∧
    ((nkaConn.finish_request).1).stream.closed = true := by
  refine ⟨?_, ?_, ?_⟩ <;> decide

/-- C8 (amended): whenever the idle timer is re-armed the previously
armed handle is cancelled first and replaced by the fresh one; when the
connection closes the stream (here the `no_keep_alive` disconnect path)
the outstanding handle is not cancelled and stays set — the timer later
fires as a no-op against the closed stream. -/
theorem claim_c8_timer_handle_amended (c : HTTPConnection) (hdl : Nat)
    (hto : c.connection_timeout ≠ -1) (hh : c.timeout_handle = some hdl) :
    ((c.reset_connection_timeout).2 =
      [Action.removeTimeout hdl, Action.addTimeout c.next_handle] ∧
      ((c.reset_connection_timeout).1).timeout_handle = some c.next_handle) ∧
    (c.no_keep_alive = true →
      (c.finish_request).2 = [Action.streamClose] ∧
      ((c.finish_request).1).timeout_handle = some hdl) ∧
    (c.stream.closed = true → c.handle_timeout = (c, [])) := by
  refine ⟨⟨?_, ?_⟩, ?_, ?_⟩
  · simp [reset_connection_timeout, hto, remove_connection_timeout, hh]
  · simp [reset_connection_timeout, hto]
  · intro hnka
    constructor
    · simp [finish_request, hnka]
    · simp [finish_request, hnka, hh]
  · intro hc
    simp [handle_timeout, hc]

/-- Witness for the amended C8 at a concrete armed connection. -/
theorem claim_c8_timer_handle_amended_witness :
    ((nkaConn.reset_connection_timeout).2 =
      [Action.removeTimeout 3, Action.addTimeout nkaConn.next_handle] ∧
      ((nkaConn.reset_connection_timeout).1).timeout_handle = some nkaConn.next_handle) ∧
    (nkaConn.no_keep_alive = true →
      (nkaConn.finish_request).2 = [Action.streamClose] ∧
      ((nkaConn.finish_request).1).timeout_handle = some 3) ∧
    (nkaConn.stream.closed = true → nkaConn.handle_timeout = (nkaConn, [])) :=
  claim_c8_timer_handle_amended nkaConn 3 (by decide) rfl

/-- C9 fails as stated: on a non-TLS connection the `getpeercert`
attribute lookup on a plain socket raises `AttributeError`, which the
`except ssl.SSLError` clause does not catch — the call does not return
`None`. -/
theorem claim_c9_counterexample :
    get_ssl_certificate (socketGetpeercert false (TlsFetch.cert none)) =
      Except.error "AttributeError" ∧
    get_ssl_certificate (socketGetpeercert false (TlsFetch.cert none)) ≠
      Except.ok none := by
  constructor <;> simp [get_ssl_certificate, socketGetpeercert]

/-- C9 (amended): on a TLS connection `get_ssl_certificate` returns the
peer certificate the socket reports and turns an `ssl.SSLError` into
`None`; on a non-TLS connection the lookup raises an uncaught
`AttributeError` instead of returning `None`. -/
theorem claim_c9_certificate_amended :
    (∀ cert, get_ssl_certificate (socketGetpeercert true (TlsFetch.cert cert)) =
      Except.ok cert) ∧
    get_ssl_certificate (socketGetpeercert true TlsFetch.sslFailure) = Except.ok none ∧
    (∀ f, get_ssl_certificate (socketGetpeercert false f) =
      Except.error "AttributeError") :=
  ⟨fun _ => rfl, rfl, fun _ => rfl⟩

end Tornado
